import Mathlib

/-!
Verification of `@profullstack/favicon-generator` (src/src/index.js,
src/src/utils.js, src/src/constants.js) through a shallow embedding.

Byte buffers (Node `Buffer`) are modelled as `List Nat`, each element a
byte value.  Node's `buffer.writeUInt8 / writeUInt16LE / writeUInt32LE`
validate that the value fits the field and throw a `RangeError`
otherwise; fallible paths are therefore modelled in `Except String`.
`Buffer.alloc` zero-fills and the writer covers every byte of the
allocation exactly once, left to right, so the result of the sequence of
writes is the concatenation of the individual field encodings.
-/

/-- Byte of `l` at index `n`; Node buffer reads inside the allocation. -/
def byteAt (l : List Nat) (n : Nat) : Nat := l.getD n 0

/-- Little-endian 2-byte encoding, as stored by `buffer.writeUInt16LE`. -/
def writeU16LE (v : Nat) : List Nat := [v % 256, v / 256 % 256]

/-- Little-endian 4-byte encoding, as stored by `buffer.writeUInt32LE`. -/
def writeU32LE (v : Nat) : List Nat :=
  [v % 256, v / 256 % 256, v / 65536 % 256, v / 16777216 % 256]

/-- Little-endian 2-byte read starting at `off`. -/
def readU16LE (l : List Nat) (off : Nat) : Nat :=
  byteAt l off + 256 * byteAt l (off + 1)

/-- Little-endian 4-byte read starting at `off`. -/
def readU32LE (l : List Nat) (off : Nat) : Nat :=
  byteAt l off + 256 * byteAt l (off + 1) + 65536 * byteAt l (off + 2) +
    16777216 * byteAt l (off + 3)

/-- Contiguous slice of `len` bytes starting at offset `off`. -/
def bytesAt (l : List Nat) (off len : Nat) : List Nat :=
  (l.drop off).take len

/-- Node `writeUInt8` value check: throws `RangeError` unless the value
is a valid unsigned byte. -/
def checkU8 (v : Nat) : Except String Nat :=
  if v ≤ 255 then .ok v else .error "RangeError: value out of range"

/-- Node `writeUInt16LE` value check. -/
def checkU16 (v : Nat) : Except String Nat :=
  if v ≤ 65535 then .ok v else .error "RangeError: value out of range"

/-- Node `writeUInt32LE` value check. -/
def checkU32 (v : Nat) : Except String Nat :=
  if v ≤ 4294967295 then .ok v else .error "RangeError: value out of range"

/-- One 16-byte ICO directory entry, exactly the eight writes of
`createIcoBuffer`'s directory loop (src/src/index.js lines 168-189):
width byte (`size === 256 ? 0 : size`), height byte (same), color
palette 0, reserved 0, planes 1 (u16), bits-per-pixel 32 (u16), image
byte length (u32), absolute image offset (u32). -/
def icoDirEntry (size imageSize imageOffset : Nat) : Except String (List Nat) := do
  let w ← checkU8 (if size = 256 then 0 else size)
  let h ← checkU8 (if size = 256 then 0 else size)
  let isz ← checkU32 imageSize
  let ioff ← checkU32 imageOffset
  return [w, h, 0, 0] ++ writeU16LE 1 ++ writeU16LE 32 ++ writeU32LE isz ++ writeU32LE ioff

/-- The first loop of `createIcoBuffer` (src/src/index.js lines 149-154):
starting from `dirSize`, pushes the running total before adding each
buffer's length, producing one offset per PNG buffer. -/
def imageOffsets : List (List Nat) → Nat → List Nat
  | [], _ => []
  | b :: bs, acc => acc :: imageOffsets bs (acc + b.length)

/-- The directory-writing loop of `createIcoBuffer` (lines 168-189): one
entry per PNG buffer, reading `sizes[i]` and `imageOffsets[i]`.  When
`sizes` is shorter than `pngBuffers`, the JS code reads `undefined` and
`writeUInt8` throws a `TypeError`; the offsets list always has one
element per buffer when called from `createIcoBuffer`. -/
def icoDirEntries : List (List Nat) → List Nat → List Nat → Except String (List Nat)
  | [], _, _ => .ok []
  | _ :: _, [], _ => .error "TypeError: value is undefined"
  | _ :: _, _ :: _, [] => .error "TypeError: value is undefined"
  | b :: bs, s :: ss, o :: os => do
    let e ← icoDirEntry s b.length o
    let rest ← icoDirEntries bs ss os
    return e ++ rest

/-- Embedding of `createIcoBuffer(pngBuffers, sizes)` (src/src/index.js
lines 141-198).  Header: reserved 0 (u16), type 1 (u16), count (u16);
then the directory table; then the PNG buffers copied back to back. -/
def createIcoBuffer (pngBuffers : List (List Nat)) (sizes : List Nat) :
    Except String (List Nat) := do
  let iconCount := pngBuffers.length
  let dirSize := 6 + 16 * iconCount
  let offs := imageOffsets pngBuffers dirSize
  let cnt ← checkU16 iconCount
  let dir ← icoDirEntries pngBuffers sizes offs
  return writeU16LE 0 ++ writeU16LE 1 ++ writeU16LE cnt ++ dir ++ pngBuffers.flatten

/-- Pure byte image of one directory entry (the value `icoDirEntry`
returns when all range checks pass). -/
def entryBytes (size len off : Nat) : List Nat :=
  [if size = 256 then 0 else size, if size = 256 then 0 else size, 0, 0] ++
    writeU16LE 1 ++ writeU16LE 32 ++ writeU32LE len ++ writeU32LE off

/-- Pure byte image of the directory table with running offset `acc`. -/
def dirBytes : List (List Nat) → List Nat → Nat → List Nat
  | [], _, _ => []
  | _ :: _, [], _ => []
  | b :: bs, s :: ss, acc => entryBytes s b.length acc ++ dirBytes bs ss (acc + b.length)

/-- Pure byte image of the whole ICO buffer produced on success. -/
def icoBytes (bufs : List (List Nat)) (sizes : List Nat) : List Nat :=
  writeU16LE 0 ++ writeU16LE 1 ++ writeU16LE bufs.length ++
    dirBytes bufs sizes (6 + 16 * bufs.length) ++ bufs.flatten

example : createIcoBuffer [] [] = .ok [0, 0, 1, 0, 0, 0] := rfl

example :
    createIcoBuffer [[9, 9, 9]] [256] =
      .ok ([0, 0, 1, 0, 1, 0] ++
        [0, 0, 0, 0, 1, 0, 32, 0, 3, 0, 0, 0, 22, 0, 0, 0] ++ [9, 9, 9]) := rfl

/-- Length of one encoded directory entry. -/
lemma entryBytes_length (s len off : Nat) : (entryBytes s len off).length = 16 := rfl

/-- Length of the encoded directory table. -/
lemma dirBytes_length :
    ∀ (bs : List (List Nat)) (ss : List Nat) (acc : Nat),
      ss.length = bs.length → (dirBytes bs ss acc).length = 16 * bs.length
  | [], [], _, _ => rfl
  | [], _ :: _, _, h => by simp at h
  | _ :: _, [], _, h => by simp at h
  | b :: bs, s :: ss, acc, h => by
    have ih := dirBytes_length bs ss (acc + b.length) (by simpa using h)
    simp [dirBytes, entryBytes_length, ih]
    omega

/-- When the size fits a byte (after the 256-to-0 rule) and both 32-bit
fields are in range, `icoDirEntry` succeeds with the pure entry bytes. -/
lemma icoDirEntry_ok (s len off : Nat) (hs : s ≤ 256)
    (hlen : len ≤ 4294967295) (hoff : off ≤ 4294967295) :
    icoDirEntry s len off = .ok (entryBytes s len off) := by
  have hw : (if s = 256 then 0 else s) ≤ 255 := by split <;> omega
  simp [icoDirEntry, checkU8, checkU32, hw, hlen, hoff, entryBytes, Bind.bind, Except.bind, Pure.pure, Except.pure]

/-- When every size fits and the final total fits 32 bits, the directory
loop succeeds and produces the pure directory bytes. -/
lemma icoDirEntries_ok :
    ∀ (bs : List (List Nat)) (ss : List Nat) (acc : Nat),
      ss.length = bs.length → (∀ s ∈ ss, s ≤ 256) →
      acc + (bs.map List.length).sum ≤ 4294967295 →
      icoDirEntries bs ss (imageOffsets bs acc) = .ok (dirBytes bs ss acc)
  | [], [], _, _, _, _ => rfl
  | [], _ :: _, _, h, _, _ => by simp at h
  | _ :: _, [], _, h, _, _ => by simp at h
  | b :: bs, s :: ss, acc, h, hsz, hb => by
    have hsum : acc + (b.length + ((bs.map List.length).sum)) ≤ 4294967295 := by
      simpa using hb
    have ih := icoDirEntries_ok bs ss (acc + b.length) (by simpa using h)
      (fun x hx => hsz x (List.mem_cons_of_mem _ hx)) (by omega)
    have he := icoDirEntry_ok s b.length acc (hsz s (List.mem_cons_self _ _))
      (by omega) (by omega)
    simp [imageOffsets, icoDirEntries, dirBytes, he, ih, Bind.bind, Except.bind, Pure.pure, Except.pure]

/-- Success characterization of `createIcoBuffer`: under the range
conditions enforced by Node's buffer writes, the encoder returns exactly
the pure byte image `icoBytes`. -/
lemma createIcoBuffer_ok (bufs : List (List Nat)) (sizes : List Nat)
    (hlen : sizes.length = bufs.length) (hsz : ∀ s ∈ sizes, s ≤ 256)
    (hcnt : bufs.length ≤ 65535)
    (htot : 6 + 16 * bufs.length + (bufs.map List.length).sum ≤ 4294967295) :
    createIcoBuffer bufs sizes = .ok (icoBytes bufs sizes) := by
  have hdir := icoDirEntries_ok bufs sizes (6 + 16 * bufs.length) hlen hsz htot
  simp [createIcoBuffer, checkU16, hcnt, hdir, icoBytes, Bind.bind, Except.bind, Pure.pure, Except.pure]

/-- Reading past an initial segment of an appended buffer. -/
lemma byteAt_append_add (l m : List Nat) (n : Nat) :
    byteAt (l ++ m) (l.length + n) = byteAt m n := by
  unfold byteAt
  rw [List.getD_append_right _ _ _ _ (Nat.le_add_right _ _), Nat.add_sub_cancel_left]

/-- Reading inside the left part of an appended buffer. -/
lemma byteAt_append_lt (l m : List Nat) (n : Nat) (h : n < l.length) :
    byteAt (l ++ m) n = byteAt l n :=
  List.getD_append l m 0 n h

/-- Byte `16*i + j` of the directory table is byte `j` of entry `i`,
whose stored offset is the running sum of the preceding buffer lengths. -/
lemma dirBytes_byteAt :
    ∀ (bs : List (List Nat)) (ss : List Nat) (acc i j : Nat),
      i < bs.length → ss.length = bs.length → j < 16 →
      byteAt (dirBytes bs ss acc) (16 * i + j) =
        byteAt (entryBytes (ss.getD i 0) ((bs.getD i []).length)
          (acc + ((bs.take i).map List.length).sum)) j
  | [], _, _, _, _, hi, _, _ => absurd hi (by simp)
  | _ :: _, [], _, _, _, _, h, _ => by simp at h
  | b :: bs, s :: ss, acc, 0, j, _, _, hj => by
    have hlt : 16 * 0 + j < (entryBytes s b.length acc).length := by
      rw [entryBytes_length]; omega
    rw [dirBytes, byteAt_append_lt _ _ _ hlt]
    simp
  | b :: bs, s :: ss, acc, i + 1, j, hi, h, hj => by
    have hidx : 16 * (i + 1) + j = (entryBytes s b.length acc).length + (16 * i + j) := by
      rw [entryBytes_length]; omega
    rw [dirBytes, hidx, byteAt_append_add]
    have ih := dirBytes_byteAt bs ss (acc + b.length) i j (by simpa using hi)
      (by simpa using h) hj
    rw [ih]
    have : acc + b.length + ((bs.take i).map List.length).sum =
        acc + (((b :: bs).take (i + 1)).map List.length).sum := by
      simp; omega
    rw [this]
    simp

/-- Byte `k + 6` of the whole ICO image, for `k` inside the directory
table, is byte `k` of the directory table. -/
lemma icoBytes_byteAt_dir (bufs : List (List Nat)) (sizes : List Nat) (k : Nat)
    (hk : k < (dirBytes bufs sizes (6 + 16 * bufs.length)).length) :
    byteAt (icoBytes bufs sizes) (k + 6) =
      byteAt (dirBytes bufs sizes (6 + 16 * bufs.length)) k := by
  show byteAt (dirBytes bufs sizes (6 + 16 * bufs.length) ++ bufs.flatten) k = _
  exact byteAt_append_lt _ _ _ hk

/-- Byte `6 + 16*i + j` of the ICO image is byte `j` of directory entry
`i`, for `j < 16`. -/
lemma ico_entry_byteAt (bufs : List (List Nat)) (sizes : List Nat) (i j : Nat)
    (hi : i < bufs.length) (hlen : sizes.length = bufs.length) (hj : j < 16) :
    byteAt (icoBytes bufs sizes) (6 + 16 * i + j) =
      byteAt (entryBytes (sizes.getD i 0) ((bufs.getD i []).length)
        (6 + 16 * bufs.length + ((bufs.take i).map List.length).sum)) j := by
  have h1 : 6 + 16 * i + j = (16 * i + j) + 6 := by omega
  have hk : 16 * i + j < (dirBytes bufs sizes (6 + 16 * bufs.length)).length := by
    rw [dirBytes_length bufs sizes _ hlen]; omega
  rw [h1, icoBytes_byteAt_dir bufs sizes _ hk,
    dirBytes_byteAt bufs sizes _ i j hi hlen hj]

/-- The stored 32-bit image size field of an entry reads back to the
original length when it fits 32 bits. -/
lemma entryBytes_read_size (s len off : Nat) (h : len ≤ 4294967295) :
    readU32LE (entryBytes s len off) 8 = len := by
  show len % 256 + 256 * (len / 256 % 256) + 65536 * (len / 65536 % 256) +
    16777216 * (len / 16777216 % 256) = len
  omega

/-- The stored 32-bit image offset field of an entry reads back to the
original offset when it fits 32 bits. -/
lemma entryBytes_read_off (s len off : Nat) (h : off ≤ 4294967295) :
    readU32LE (entryBytes s len off) 12 = off := by
  show off % 256 + 256 * (off / 256 % 256) + 65536 * (off / 65536 % 256) +
    16777216 * (off / 16777216 % 256) = off
  omega

/-- The 32-bit size field of ICO directory entry `i` reads back the
`i`-th input buffer's byte length. -/
lemma ico_read_size (bufs : List (List Nat)) (sizes : List Nat) (i : Nat)
    (hi : i < bufs.length) (hlen : sizes.length = bufs.length)
    (hb : (bufs.getD i []).length ≤ 4294967295) :
    readU32LE (icoBytes bufs sizes) (6 + 16 * i + 8) = (bufs.getD i []).length := by
  unfold readU32LE
  have e1 : 6 + 16 * i + 8 + 1 = 6 + 16 * i + 9 := by omega
  have e2 : 6 + 16 * i + 8 + 2 = 6 + 16 * i + 10 := by omega
  have e3 : 6 + 16 * i + 8 + 3 = 6 + 16 * i + 11 := by omega
  rw [e1, e2, e3,
    ico_entry_byteAt bufs sizes i 8 hi hlen (by omega),
    ico_entry_byteAt bufs sizes i 9 hi hlen (by omega),
    ico_entry_byteAt bufs sizes i 10 hi hlen (by omega),
    ico_entry_byteAt bufs sizes i 11 hi hlen (by omega)]
  exact entryBytes_read_size _ _ _ hb

/-- The 32-bit offset field of ICO directory entry `i` reads back the
directory-end offset plus the lengths of the preceding buffers. -/
lemma ico_read_off (bufs : List (List Nat)) (sizes : List Nat) (i : Nat)
    (hi : i < bufs.length) (hlen : sizes.length = bufs.length)
    (hb : 6 + 16 * bufs.length + ((bufs.take i).map List.length).sum ≤ 4294967295) :
    readU32LE (icoBytes bufs sizes) (6 + 16 * i + 12) =
      6 + 16 * bufs.length + ((bufs.take i).map List.length).sum := by
  unfold readU32LE
  have e1 : 6 + 16 * i + 12 + 1 = 6 + 16 * i + 13 := by omega
  have e2 : 6 + 16 * i + 12 + 2 = 6 + 16 * i + 14 := by omega
  have e3 : 6 + 16 * i + 12 + 3 = 6 + 16 * i + 15 := by omega
  rw [e1, e2, e3,
    ico_entry_byteAt bufs sizes i 12 hi hlen (by omega),
    ico_entry_byteAt bufs sizes i 13 hi hlen (by omega),
    ico_entry_byteAt bufs sizes i 14 hi hlen (by omega),
    ico_entry_byteAt bufs sizes i 15 hi hlen (by omega)]
  exact entryBytes_read_off _ _ _ hb

/-- Slicing the concatenation of the buffers at a prefix-sum offset for
the corresponding length recovers the `i`-th buffer exactly. -/
lemma flatten_bytesAt :
    ∀ (bs : List (List Nat)) (i : Nat), i < bs.length →
      bytesAt bs.flatten (((bs.take i).map List.length).sum) ((bs.getD i []).length) =
        bs.getD i []
  | [], _, hi => absurd hi (by simp)
  | b :: bs, 0, _ => by
    show bytesAt (b ++ bs.flatten) 0 b.length = b
    unfold bytesAt
    rw [List.drop_zero]
    exact List.take_left b bs.flatten
  | b :: bs, i + 1, hi => by
    have ih := flatten_bytesAt bs i (by simpa using hi)
    show bytesAt (b ++ bs.flatten) (b.length + ((bs.take i).map List.length).sum)
      ((bs.getD i []).length) = bs.getD i []
    unfold bytesAt at ih ⊢
    rw [List.drop_append]
    exact ih

/-- Slicing the full ICO image at an offset past the header and the
directory table slices the concatenated data section. -/
lemma icoBytes_bytesAt (bufs : List (List Nat)) (sizes : List Nat)
    (hlen : sizes.length = bufs.length) (psum len : Nat) :
    bytesAt (icoBytes bufs sizes) (6 + 16 * bufs.length + psum) len =
      bytesAt bufs.flatten psum len := by
  have h1 : 6 + 16 * bufs.length + psum = (16 * bufs.length + psum) + 6 := by omega
  rw [h1]
  show bytesAt (dirBytes bufs sizes (6 + 16 * bufs.length) ++ bufs.flatten)
    (16 * bufs.length + psum) len = bytesAt bufs.flatten psum len
  have h2 : 16 * bufs.length + psum =
      (dirBytes bufs sizes (6 + 16 * bufs.length)).length + psum := by
    rw [dirBytes_length bufs sizes _ hlen]
  unfold bytesAt
  rw [h2, List.drop_append]

/-- Prefix sums of buffer lengths are bounded by the total. -/
lemma take_map_length_sum_le (bs : List (List Nat)) (i : Nat) :
    ((bs.take i).map List.length).sum ≤ (bs.map List.length).sum := by
  conv_rhs => rw [← List.take_append_drop i bs]
  rw [List.map_append, List.sum_append]
  exact Nat.le_add_right _ _

/-- Each buffer's length is bounded by the total of all lengths. -/
lemma getD_length_le_sum (bs : List (List Nat)) (i : Nat) (hi : i < bs.length) :
    (bs.getD i []).length ≤ (bs.map List.length).sum := by
  have hmem : bs.getD i [] ∈ bs := by
    rw [List.getD_eq_getElem _ _ hi]
    exact List.getElem_mem hi
  exact List.single_le_sum (fun x _ => Nat.zero_le x) _
    (List.mem_map_of_mem List.length hmem)

/-- C1: for every non-empty ordered list of (pixelSize, pngBytes) pairs
with each pixelSize in [1, 256] (given to `createIcoBuffer` as parallel
lists), decoding the directory table of the produced ICO buffer
reproduces, in input order, the width and height bytes (pixelSize, or 0
for 256), the byte length of each PNG buffer, and the slice of the
output at each entry's declared offset for its declared length is
exactly the corresponding input PNG buffer.  The range hypotheses on the
count and total size reflect Node's `writeUInt16LE`/`writeUInt32LE`
bounds, outside which the source throws instead of returning. -/
theorem ico_roundtrip (bufs : List (List Nat)) (sizes : List Nat)
    (hlen : sizes.length = bufs.length) (hne : bufs ≠ [])
    (hsz : ∀ s ∈ sizes, 1 ≤ s ∧ s ≤ 256)
    (hcnt : bufs.length ≤ 65535)
    (htot : 6 + 16 * bufs.length + (bufs.map List.length).sum ≤ 4294967295) :
    ∃ ico, createIcoBuffer bufs sizes = .ok ico ∧
      ∀ i, i < bufs.length →
        byteAt ico (6 + 16 * i) =
          (if sizes.getD i 0 = 256 then 0 else sizes.getD i 0) ∧
        byteAt ico (6 + 16 * i + 1) =
          (if sizes.getD i 0 = 256 then 0 else sizes.getD i 0) ∧
        readU32LE ico (6 + 16 * i + 8) = (bufs.getD i []).length ∧
        bytesAt ico (readU32LE ico (6 + 16 * i + 12)) (readU32LE ico (6 + 16 * i + 8)) =
          bufs.getD i [] := by
  refine ⟨icoBytes bufs sizes,
    createIcoBuffer_ok bufs sizes hlen (fun s hs => (hsz s hs).2) hcnt htot, ?_⟩
  intro i hi
  have hpre := take_map_length_sum_le bufs i
  have hbl : (bufs.getD i []).length ≤ 4294967295 := by
    have := getD_length_le_sum bufs i hi
    omega
  refine ⟨?_, ?_, ico_read_size bufs sizes i hi hlen hbl, ?_⟩
  · exact ico_entry_byteAt bufs sizes i 0 hi hlen (by omega)
  · exact ico_entry_byteAt bufs sizes i 1 hi hlen (by omega)
  · rw [ico_read_off bufs sizes i hi hlen (by omega),
      ico_read_size bufs sizes i hi hlen hbl,
      icoBytes_bytesAt bufs sizes hlen,
      flatten_bytesAt bufs i hi]

/-- Witness for C1 at a concrete input: two buffers of sizes 16 and 256. -/
theorem ico_roundtrip_witness :
    ∃ ico, createIcoBuffer [[1, 2, 3], [4, 5]] [16, 256] = .ok ico ∧
      ∀ i, i < ([[1, 2, 3], [4, 5]] : List (List Nat)).length →
        byteAt ico (6 + 16 * i) =
          (if ([16, 256] : List Nat).getD i 0 = 256 then 0
            else ([16, 256] : List Nat).getD i 0) ∧
        byteAt ico (6 + 16 * i + 1) =
          (if ([16, 256] : List Nat).getD i 0 = 256 then 0
            else ([16, 256] : List Nat).getD i 0) ∧
        readU32LE ico (6 + 16 * i + 8) =
          (([[1, 2, 3], [4, 5]] : List (List Nat)).getD i []).length ∧
        bytesAt ico (readU32LE ico (6 + 16 * i + 12)) (readU32LE ico (6 + 16 * i + 8)) =
          ([[1, 2, 3], [4, 5]] : List (List Nat)).getD i [] :=
  ico_roundtrip [[1, 2, 3], [4, 5]] [16, 256] (by decide) (by decide) (by decide)
    (by decide) (by decide)

/-- C2: the image-data offset recorded in directory entry 0 is
`6 + 16*N`, and the offset of entry `k` is `6 + 16*N` plus the sum of
the byte lengths of buffers `0..k-1` (a strict running cumulative sum,
no padding). -/
theorem ico_offset_law (bufs : List (List Nat)) (sizes : List Nat)
    (hlen : sizes.length = bufs.length) (hne : bufs ≠ [])
    (hsz : ∀ s ∈ sizes, s ≤ 256)
    (hcnt : bufs.length ≤ 65535)
    (htot : 6 + 16 * bufs.length + (bufs.map List.length).sum ≤ 4294967295) :
    ∃ ico, createIcoBuffer bufs sizes = .ok ico ∧
      readU32LE ico (6 + 16 * 0 + 12) = 6 + 16 * bufs.length ∧
      ∀ k, k < bufs.length →
        readU32LE ico (6 + 16 * k + 12) =
          6 + 16 * bufs.length + ((bufs.take k).map List.length).sum := by
  have hmain : ∀ k, k < bufs.length →
      readU32LE (icoBytes bufs sizes) (6 + 16 * k + 12) =
        6 + 16 * bufs.length + ((bufs.take k).map List.length).sum := by
    intro k hk
    have hpre := take_map_length_sum_le bufs k
    exact ico_read_off bufs sizes k hk hlen (by omega)
  refine ⟨icoBytes bufs sizes, createIcoBuffer_ok bufs sizes hlen hsz hcnt htot, ?_, hmain⟩
  have h0 : 0 < bufs.length := List.length_pos.mpr hne
  have := hmain 0 h0
  simpa using this

/-- Witness for C2 at a concrete input. -/
theorem ico_offset_law_witness :
    ∃ ico, createIcoBuffer [[1, 2, 3], [4, 5]] [16, 32] = .ok ico ∧
      readU32LE ico (6 + 16 * 0 + 12) = 6 + 16 * ([[1, 2, 3], [4, 5]] : List (List Nat)).length ∧
      ∀ k, k < ([[1, 2, 3], [4, 5]] : List (List Nat)).length →
        readU32LE ico (6 + 16 * k + 12) =
          6 + 16 * ([[1, 2, 3], [4, 5]] : List (List Nat)).length +
            ((([[1, 2, 3], [4, 5]] : List (List Nat)).take k).map List.length).sum :=
  ico_offset_law [[1, 2, 3], [4, 5]] [16, 32] (by decide) (by decide) (by decide)
    (by decide) (by decide)

/-- C3: the encoder output begins with bytes `[0, 0, 1, 0]`, stores the
input count as a little-endian u16 at offsets 4-5, and every directory
entry declares colorCount 0, reserved 0, color planes 1 and
bits-per-pixel 32, independently of the PNG contents. -/
theorem ico_header_constants (bufs : List (List Nat)) (sizes : List Nat)
    (hlen : sizes.length = bufs.length) (hne : bufs ≠ [])
    (hsz : ∀ s ∈ sizes, s ≤ 256)
    (hcnt : bufs.length ≤ 65535)
    (htot : 6 + 16 * bufs.length + (bufs.map List.length).sum ≤ 4294967295) :
    ∃ ico, createIcoBuffer bufs sizes = .ok ico ∧
      ico.take 4 = [0, 0, 1, 0] ∧
      readU16LE ico 4 = bufs.length ∧
      ∀ i, i < bufs.length →
        byteAt ico (6 + 16 * i + 2) = 0 ∧
        byteAt ico (6 + 16 * i + 3) = 0 ∧
        readU16LE ico (6 + 16 * i + 4) = 1 ∧
        readU16LE ico (6 + 16 * i + 6) = 32 := by
  refine ⟨icoBytes bufs sizes, createIcoBuffer_ok bufs sizes hlen hsz hcnt htot,
    rfl, ?_, ?_⟩
  · show bufs.length % 256 + 256 * (bufs.length / 256 % 256) = bufs.length
    omega
  · intro i hi
    refine ⟨ico_entry_byteAt bufs sizes i 2 hi hlen (by omega),
      ico_entry_byteAt bufs sizes i 3 hi hlen (by omega), ?_, ?_⟩
    · unfold readU16LE
      have e1 : 6 + 16 * i + 4 + 1 = 6 + 16 * i + 5 := by omega
      rw [e1, ico_entry_byteAt bufs sizes i 4 hi hlen (by omega),
        ico_entry_byteAt bufs sizes i 5 hi hlen (by omega)]
      rfl
    · unfold readU16LE
      have e1 : 6 + 16 * i + 6 + 1 = 6 + 16 * i + 7 := by omega
      rw [e1, ico_entry_byteAt bufs sizes i 6 hi hlen (by omega),
        ico_entry_byteAt bufs sizes i 7 hi hlen (by omega)]
      rfl

/-- Witness for C3 at a concrete input. -/
theorem ico_header_constants_witness :
    ∃ ico, createIcoBuffer [[7]] [256] = .ok ico ∧
      ico.take 4 = [0, 0, 1, 0] ∧
      readU16LE ico 4 = ([[7]] : List (List Nat)).length ∧
      ∀ i, i < ([[7]] : List (List Nat)).length →
        byteAt ico (6 + 16 * i + 2) = 0 ∧
        byteAt ico (6 + 16 * i + 3) = 0 ∧
        readU16LE ico (6 + 16 * i + 4) = 1 ∧
        readU16LE ico (6 + 16 * i + 6) = 32 :=
  ico_header_constants [[7]] [256] (by decide) (by decide) (by decide) (by decide)
    (by decide)

/-- C4 counterexample: called on the empty image list, `createIcoBuffer`
does not raise any error; it is an ordinary successful return. -/
theorem ico_empty_no_error : ¬ ∃ e, createIcoBuffer [] [] = Except.error e := by
  rintro ⟨e, he⟩
  rw [show createIcoBuffer [] [] = Except.ok [0, 0, 1, 0, 0, 0] from rfl] at he
  exact Except.noConfusion he

/-- C4 amended: on the empty image list the encoder returns normally,
producing the 6-byte ICO header `[0, 0, 1, 0, 0, 0]` that declares type
1 and zero images (there is no `EncodingError` anywhere in the code). -/
theorem ico_empty_returns_header :
    createIcoBuffer [] [] = Except.ok [0, 0, 1, 0, 0, 0] := rfl

/-!
String helpers modelling the JavaScript string operations used by the
generator: `String.prototype.includes`, `String.prototype.startsWith`,
Node `path.basename` / `path.extname` / `path.join`, and `parseInt`.
Strings are handled through their character lists because the JS
operations are character-based.
-/

/-- Whether `pat` is an initial segment of `l` (JS `startsWith` on
character lists). -/
def listStartsWith : List Char → List Char → Bool
  | _, [] => true
  | [], _ :: _ => false
  | a :: as, b :: bs => a == b && listStartsWith as bs

/-- Whether `pat` occurs contiguously anywhere in `l` (JS `includes` on
character lists). -/
def listHasSub : List Char → List Char → Bool
  | [], pat => listStartsWith [] pat
  | a :: as, pat => listStartsWith (a :: as) pat || listHasSub as pat

/-- JS `String.prototype.includes`. -/
def jsIncludes (s pat : String) : Bool := listHasSub s.toList pat.toList

/-- JS `String.prototype.startsWith`. -/
def jsStartsWith (s pat : String) : Bool := listStartsWith s.toList pat.toList

/-- Last path component accumulator for `path.basename`: restart the
accumulator at every separator. -/
def basenameChars : List Char → List Char → List Char
  | [], acc => acc.reverse
  | c :: cs, acc => if c = '/' then basenameChars cs [] else basenameChars cs (c :: acc)

/-- Node `path.basename` (POSIX separators; trailing-separator trimming
is not modelled, no caller passes a trailing separator). -/
def jsBasename (p : String) : String := String.mk (basenameChars p.toList [])

/-- Extension accumulator for `path.extname`: remember the characters
from the most recent dot onward, `none` when no dot has been seen. -/
def extnameChars : List Char → Option (List Char) → Option (List Char)
  | [], acc => acc
  | c :: cs, acc =>
    if c = '.' then extnameChars cs (some ['.'])
    else extnameChars cs (acc.map (fun l => l ++ [c]))

/-- Node `path.extname` of the basename: the substring from the last dot
to the end, or the empty string when the basename has no dot or starts
with its only dot (hidden files have no extension). -/
def jsExtname (p : String) : String :=
  match (jsBasename p).toList with
  | [] => ""
  | c :: cs =>
    if c = '.' then
      match extnameChars cs none with
      | none => ""
      | some l => String.mk l
    else
      match extnameChars (c :: cs) none with
      | none => ""
      | some l => String.mk l

/-- Node `path.join(a, b)` for the two-argument calls the generator
makes (no normalization is needed for the joined names it uses). -/
def pathJoin (a b : String) : String := a ++ "/" ++ b

/-- Value of a digit run (most significant first). -/
def digitsToNat (l : List Char) : Nat :=
  l.foldl (fun acc c => acc * 10 + (c.toNat - 48)) 0

/-- Leading digit run of a character list. -/
def leadDigits : List Char → List Char
  | [] => []
  | c :: cs => if c.isDigit then c :: leadDigits cs else []

/-- First digit run found anywhere in a character list (the JS regexp
match `/\d+/`); empty when there is none. -/
def firstDigitRun : List Char → List Char
  | [] => []
  | c :: cs => if c.isDigit then c :: leadDigits cs else firstDigitRun cs

/-- JS `parseInt` in base 10 on the strings the generator builds:
optional sign then the leading digit run.  (On a string with no leading
digits JS yields NaN; the generator only parses strings of the shape
`<int>x<int>` or a digit run defaulted to `"0"`, so that case is
modelled as 0.) -/
def parseIntJS (s : String) : Int :=
  match s.toList with
  | '-' :: rest => -(Int.ofNat (digitsToNat (leadDigits rest)))
  | '+' :: rest => Int.ofNat (digitsToNat (leadDigits rest))
  | l => Int.ofNat (digitsToNat (leadDigits l))

example : jsIncludes "apple-touch-icon-180x180.png" "icon-" = true := by decide
example : jsBasename "./icons/icon-192x192.png" = "icon-192x192.png" := by decide
example : jsExtname "./logo.SVG" = ".SVG" := by decide
example : jsExtname ".svg" = "" := by decide
example : parseIntJS "192x192" = 192 := by decide
example : parseIntJS "-5x-5" = -5 := by decide

/-!
Data model of the generator: background constants (src/src/constants.js),
option and manifest records, and the background policy of `generateIcon`
(src/src/index.js lines 32-46).  JS numbers holding pixel sizes, quality
and compression levels are modelled as `Int` (all comparisons in the
source are integral).
-/

/-- An RGBA fill, as passed to the raster library's `background`. -/
structure RGBA where
  r : Nat
  g : Nat
  b : Nat
  alpha : Nat
deriving Repr, DecidableEq

/-- The `BACKGROUNDS` constant of src/src/constants.js. -/
def BACKGROUNDS.transparent : RGBA := ⟨255, 255, 255, 0⟩

/-- The opaque white member of `BACKGROUNDS`. -/
def BACKGROUNDS.white : RGBA := ⟨255, 255, 255, 1⟩

/-- The opaque black member of `BACKGROUNDS` (defined, never selected). -/
def BACKGROUNDS.black : RGBA := ⟨0, 0, 0, 1⟩

/-- The `needsSolidBackground` test of `generateIcon` (src/src/index.js
line 34): the basename of the output path contains `"icon-"` and the
pixel size is at least 192. -/
def needsSolidBackground (outputPath : String) (size : Int) : Bool :=
  jsIncludes (jsBasename outputPath) "icon-" && 192 ≤ size

/-- The background fill `generateIcon` passes to the renderer
(src/src/index.js line 39). -/
def generateIconBackground (outputPath : String) (size : Int) : RGBA :=
  if needsSolidBackground outputPath size then BACKGROUNDS.white
  else BACKGROUNDS.transparent

/-- One `{size, name}` element of the `iconSizes` option. -/
structure IconSizeEntry where
  size : Int
  name : String
deriving Repr, DecidableEq

/-- The option record consumed by `generateIcons` after merging with
`DEFAULT_OPTIONS` (src/src/constants.js lines 23-34; the merge itself is
plain object spread and is not modelled — the embedding takes the merged
record). -/
structure Options where
  svgPath : String
  outputDir : String
  iconSizes : List IconSizeEntry
  generateFavicon : Bool
  faviconSizes : List Int
  generateRootFavicons : Bool
  faviconPngSize : Int
  quality : Int
  compressionLevel : Int
  verbose : Bool
deriving Repr, DecidableEq

/-- The `DEFAULT_ICON_SIZES` constant of src/src/constants.js. -/
def DEFAULT_ICON_SIZES : List IconSizeEntry :=
  [⟨57, "apple-touch-icon-57x57.png"⟩,
   ⟨60, "apple-touch-icon-60x60.png"⟩,
   ⟨72, "apple-touch-icon-72x72.png"⟩,
   ⟨76, "apple-touch-icon-76x76.png"⟩,
   ⟨114, "apple-touch-icon-114x114.png"⟩,
   ⟨120, "apple-touch-icon-120x120.png"⟩,
   ⟨144, "apple-touch-icon-144x144.png"⟩,
   ⟨152, "apple-touch-icon-152x152.png"⟩,
   ⟨180, "apple-touch-icon-180x180.png"⟩,
   ⟨192, "icon-192x192.png"⟩,
   ⟨256, "icon-256x256.png"⟩,
   ⟨384, "icon-384x384.png"⟩,
   ⟨512, "icon-512x512.png"⟩]

/-- The `DEFAULT_OPTIONS` constant of src/src/constants.js. -/
def DEFAULT_OPTIONS : Options :=
  { svgPath := "./favicon.svg"
    outputDir := "./icons"
    iconSizes := DEFAULT_ICON_SIZES
    generateFavicon := true
    faviconSizes := [16, 32]
    generateRootFavicons := true
    faviconPngSize := 32
    quality := 95
    compressionLevel := 9
    verbose := true }

/-- One `{size, name, path}` record pushed into `results.icons`. -/
structure IconRecord where
  size : Int
  name : String
  path : String
deriving Repr, DecidableEq

/-- One `{path, size}` record of `results.faviconSizes`. -/
structure FaviconEntry where
  path : String
  size : Int
deriving Repr, DecidableEq

/-- The `{png, svg, ico}` record returned by `generateRootFavicons`. -/
structure RootFaviconSet where
  png : String
  svg : String
  ico : String
deriving Repr, DecidableEq

/-- The `results` object assembled by `generateIcons`; the optional
fields are attached as the run progresses. -/
structure Results where
  icons : List IconRecord
  faviconSizes : List FaviconEntry
  outputDir : String
  rootFavicons : Option RootFaviconSet := none
  htmlFile : Option String := none
  manifestFile : Option String := none
  browserConfigFile : Option String := none
deriving Repr, DecidableEq

/-- ASCII lower-casing of one character (the inputs `toLowerCase` sees
here are ASCII file extensions). -/
def lowerChar (c : Char) : Char :=
  if 'A' ≤ c ∧ c ≤ 'Z' then Char.ofNat (c.toNat + 32) else c

/-- JS `String.prototype.toLowerCase` on the ASCII strings used here. -/
def jsToLower (s : String) : String := String.mk (s.toList.map lowerChar)

/-- The `isSvgFile` helper (src/src/utils.js lines 23-25):
`path.extname(filePath).toLowerCase() === '.svg'`. -/
def isSvgFile (filePath : String) : Bool :=
  jsToLower (jsExtname filePath) == ".svg"

/-- The per-icon validation loop of `validateOptions` (src/src/utils.js
lines 99-106), in source order. -/
def validateIconEntries : List IconSizeEntry → Except String Unit
  | [] => .ok ()
  | icon :: rest =>
    if icon.size ≤ 0 then .error "Each icon must have a valid positive size"
    else if icon.name = "" then .error "Each icon must have a valid name"
    else validateIconEntries rest

/-- Embedding of `validateOptions` (src/src/utils.js lines 82-119), with
each check in source order.  JS falsiness of a missing or empty string
option is modelled as the empty string; the `typeof` checks always pass
because the record is typed. -/
def validateOptions (o : Options) : Except String Unit :=
  if o.svgPath = "" then .error "svgPath is required"
  else if ¬ isSvgFile o.svgPath then .error "svgPath must be an SVG file"
  else if o.outputDir = "" then .error "outputDir is required"
  else if o.iconSizes.length = 0 then .error "iconSizes must be a non-empty array"
  else
    match validateIconEntries o.iconSizes with
    | .error e => .error e
    | .ok () =>
      if o.quality < 1 ∨ 100 < o.quality then
        .error "quality must be a number between 1 and 100"
      else if o.compressionLevel < 0 ∨ 9 < o.compressionLevel then
        .error "compressionLevel must be a number between 0 and 9"
      else .ok ()

example : validateOptions DEFAULT_OPTIONS = .ok () := rfl
example : validateOptions { DEFAULT_OPTIONS with quality := 0 } =
  .error "quality must be a number between 1 and 100" := rfl
example : validateOptions { DEFAULT_OPTIONS with iconSizes := [] } =
  .error "iconSizes must be a non-empty array" := rfl
example : validateOptions { DEFAULT_OPTIONS with svgPath := "./logo.png" } =
  .error "svgPath must be an SVG file" := rfl

/-- C5: an icon render gets the opaque white background exactly when the
basename of its output path contains `"icon-"` and its pixel size is at
least 192; otherwise it gets the transparent background.  The three
boundary artifacts named by the spec behave accordingly. -/
theorem background_policy :
    (∀ (p : String) (s : Int),
      (generateIconBackground p s = BACKGROUNDS.white ↔
        (jsIncludes (jsBasename p) "icon-" = true ∧ 192 ≤ s)) ∧
      (generateIconBackground p s = BACKGROUNDS.transparent ↔
        ¬(jsIncludes (jsBasename p) "icon-" = true ∧ 192 ≤ s))) ∧
    generateIconBackground "icon-192x192.png" 192 = BACKGROUNDS.white ∧
    generateIconBackground "apple-touch-icon-180x180.png" 180 = BACKGROUNDS.transparent ∧
    generateIconBackground "icon-150x150.png" 150 = BACKGROUNDS.transparent := by
  refine ⟨?_, by decide, by decide, by decide⟩
  intro p s
  have key : needsSolidBackground p s = true ↔
      (jsIncludes (jsBasename p) "icon-" = true ∧ 192 ≤ s) := by
    simp [needsSolidBackground, Bool.and_eq_true, decide_eq_true_eq]
  unfold generateIconBackground
  cases hb : needsSolidBackground p s
  · have hc : ¬(jsIncludes (jsBasename p) "icon-" = true ∧ 192 ≤ s) := fun hcc => by
      have h1 := key.mpr hcc
      rw [hb] at h1
      exact Bool.noConfusion h1
    simp [hc, BACKGROUNDS.white, BACKGROUNDS.transparent]
  · have hc := key.mp hb
    simp [hc, BACKGROUNDS.white, BACKGROUNDS.transparent]

/-!
Metadata emitters (src/src/utils.js lines 167-318).  JS `Array.sort`
with a numeric comparator is a stable sort of the array, modelled with
`List.insertionSort`; for `generateHtmlMetaTags` the sort happens
in place on `results.faviconSizes`, so the emitter is modelled as
returning both the rendered string and the post-call `results` record.
-/

/-- Stable descending sort on favicon entries, the comparator
`(a, b) => b.size - a.size`. -/
def sortFavDesc (l : List FaviconEntry) : List FaviconEntry :=
  List.insertionSort (fun a b => b.size ≤ a.size) l

/-- Stable descending sort on icon records, comparator
`(a, b) => b.size - a.size`. -/
def sortIconsDesc (l : List IconRecord) : List IconRecord :=
  List.insertionSort (fun a b => b.size ≤ a.size) l

/-- Embedding of `generateHtmlMetaTags(results, baseUrl)` (src/src/utils.js
lines 167-222).  The first component is the returned tag string; the
second is the `results` object after the call: line 175 calls
`results.faviconSizes.sort(...)`, which sorts that array in place, so the
post-call record carries the descending-sorted favicon list whenever the
guard `faviconSizes?.length > 0` ran the sort. -/
def generateHtmlMetaTags (results : Results) (baseUrl : String) : String × Results :=
  let favSorted :=
    if 0 < results.faviconSizes.length then sortFavDesc results.faviconSizes
    else results.faviconSizes
  let favLines :=
    if 0 < results.faviconSizes.length then
      favSorted.map (fun f =>
        "<link rel=\"icon\" type=\"image/png\" sizes=\"" ++ toString f.size ++ "x" ++
          toString f.size ++ "\" href=\"" ++ baseUrl ++ "/favicon-" ++ toString f.size ++
          ".png\" />")
    else []
  let appleIcons :=
    sortIconsDesc (results.icons.filter (fun e => jsStartsWith e.name "apple-touch-icon"))
  let appleLines := appleIcons.map (fun e =>
    "<link rel=\"apple-touch-icon\" sizes=\"" ++ toString e.size ++ "x" ++ toString e.size ++
      "\" href=\"" ++ baseUrl ++ "/" ++ e.name ++ "\" />")
  let tile144 := results.icons.find? (fun e => e.size == 144)
  let tileLines :=
    match tile144 with
    | some t =>
      ["<meta name=\"msapplication-TileImage\" content=\"" ++ baseUrl ++ "/" ++ t.name ++ "\" />"]
    | none => []
  let lines :=
    ["<!-- Favicon -->",
     "<link rel=\"icon\" type=\"image/svg+xml\" href=\"/favicon.svg\" />"] ++
    favLines ++
    ["", "<!-- Apple Touch Icons (iOS) -->"] ++
    appleLines ++
    ["", "<!-- Web App Manifest (PWA) -->",
     "<link rel=\"manifest\" href=\"/manifest.json\" />",
     "", "<!-- Theme Color (for browser chrome) -->",
     "<meta name=\"theme-color\" content=\"#ffffff\" />",
     "", "<!-- iOS Web App -->",
     "<meta name=\"apple-mobile-web-app-capable\" content=\"yes\" />",
     "<meta name=\"apple-mobile-web-app-status-bar-style\" content=\"default\" />",
     "<meta name=\"apple-mobile-web-app-title\" content=\"Your App\" />",
     "", "<!-- Android -->",
     "<meta name=\"mobile-web-app-capable\" content=\"yes\" />",
     "", "<!-- Windows -->",
     "<meta name=\"msapplication-TileColor\" content=\"#ffffff\" />",
     "<meta name=\"msapplication-config\" content=\"/browserconfig.xml\" />"] ++
    tileLines
  (String.intercalate "\n" lines, { results with faviconSizes := favSorted })

/-- One icon object of the emitted `manifest.json` icons array. -/
structure ManifestIcon where
  src : String
  sizes : String
  type : String
  purpose : String
deriving Repr, DecidableEq

/-- The filter of `generateManifestJson` (src/src/utils.js line 245):
names starting with `icon-` and not containing `apple`. -/
def pwaIconFilter (e : IconRecord) : Bool :=
  jsStartsWith e.name "icon-" && !(jsIncludes e.name "apple")

/-- The map of `generateManifestJson` (lines 246-251): source URL, sizes
string, PNG type, and the `any maskable` purpose exactly for pixel sizes
192 and 512. -/
def mkPwaIcon (baseUrl : String) (e : IconRecord) : ManifestIcon :=
  { src := baseUrl ++ "/" ++ e.name
    sizes := toString e.size ++ "x" ++ toString e.size
    type := "image/png"
    purpose := if e.size = 192 ∨ e.size = 512 then "any maskable" else "any" }

/-- The `pwaIcons` pipeline of `generateManifestJson` (lines 244-256):
filter, map, then a stable ascending sort keyed on
`parseInt(a.sizes) - parseInt(b.sizes)`. -/
def pwaIcons (icons : List IconRecord) (baseUrl : String) : List ManifestIcon :=
  List.insertionSort (fun a b => parseIntJS a.sizes ≤ parseIntJS b.sizes)
    ((icons.filter pwaIconFilter).map (mkPwaIcon baseUrl))

/-- JSON string escaping (quote and backslash; the generator's inputs
contain no control characters). -/
def jsonEscape (s : String) : String :=
  String.mk (s.toList.flatMap (fun c =>
    if c = '"' ∨ c = '\\' then ['\\', c] else [c]))

/-- JSON rendering of one manifest icon object. -/
def manifestIconJson (m : ManifestIcon) : String :=
  "\x7b\"src\":\"" ++ jsonEscape m.src ++ "\",\"sizes\":\"" ++ jsonEscape m.sizes ++
    "\",\"type\":\"" ++ jsonEscape m.type ++ "\",\"purpose\":\"" ++ jsonEscape m.purpose ++
    "\"\x7d"

/-- Embedding of `generateManifestJson(results, options)` (src/src/utils.js
lines 230-271): the manifest object with the `pwaIcons` array, rendered
to JSON.  `JSON.stringify(manifest, null, 2)` pretty-prints with 2-space
indentation; the rendering here has the same fields and values in the
same order but does not reproduce the whitespace of `JSON.stringify`
(none of the verified properties concerns the whitespace). -/
def generateManifestJson (results : Results) (name description baseUrl : String) : String :=
  let icons := pwaIcons results.icons baseUrl
  "\x7b\"name\":\"" ++ jsonEscape name ++
    "\",\"short_name\":\"App\",\"description\":\"" ++ jsonEscape description ++
    "\",\"start_url\":\"/\",\"display\":\"standalone\"," ++
    "\"background_color\":\"#ffffff\",\"theme_color\":\"#ffffff\"," ++
    "\"orientation\":\"portrait-primary\",\"icons\":[" ++
    String.intercalate "," (icons.map manifestIconJson) ++ "]\x7d"

/-- The `tile310x150` lookup of `generateBrowserConfig` (src/src/utils.js
line 287): `results.icons.find(({ size }) => size === 310 && name.includes('310x150'))`.
The arrow function destructures only `size`; the identifier `name` is
unbound in the module (Node defines no global `name`), so the first
element whose size is 310 makes the predicate body throw a
`ReferenceError`; on every other element the `&&` short-circuits. -/
def find310x150 : List IconRecord → Except String (Option IconRecord)
  | [] => .ok none
  | e :: rest =>
    if e.size = 310 then .error "ReferenceError: name is not defined"
    else find310x150 rest

/-- Embedding of `generateBrowserConfig(results, options)`
(src/src/utils.js lines 280-318), with the fixed-size lookups in source
order.  Note line 300 of the source emits a `square150x150logo` line for
the 144-pixel tile. -/
def generateBrowserConfig (icons : List IconRecord) (tileColor baseUrl : String) :
    Except String String := do
  let tile144 := icons.find? (fun e => e.size == 144)
  let tile70 := icons.find? (fun e => e.size == 70)
  let tile150 := icons.find? (fun e => e.size == 150)
  let tile310x150 ← find310x150 icons
  let tile310 := icons.find? (fun e => e.size == 310)
  let seventyLines :=
    match tile70 with
    | some t => ["      <square70x70logo src=\"" ++ baseUrl ++ "/" ++ t.name ++ "\"/>"]
    | none => []
  let oneFortyFourLines :=
    match tile144 with
    | some t => ["      <square150x150logo src=\"" ++ baseUrl ++ "/" ++ t.name ++ "\"/>"]
    | none => []
  let oneFiftyLines :=
    match tile150 with
    | some t => ["      <square150x150logo src=\"" ++ baseUrl ++ "/" ++ t.name ++ "\"/>"]
    | none => []
  let wideLines :=
    match tile310x150 with
    | some t => ["      <wide310x150logo src=\"" ++ baseUrl ++ "/" ++ t.name ++ "\"/>"]
    | none => []
  let threeTenLines :=
    match tile310 with
    | some t => ["      <square310x310logo src=\"" ++ baseUrl ++ "/" ++ t.name ++ "\"/>"]
    | none => []
  let lines :=
    ["<?xml version=\"1.0\" encoding=\"utf-8\"?>",
     "<browserconfig>",
     "  <msapplication>",
     "    <tile>"] ++
    seventyLines ++ oneFortyFourLines ++ oneFiftyLines ++ wideLines ++ threeTenLines ++
    ["      <TileColor>" ++ tileColor ++ "</TileColor>",
     "    </tile>",
     "  </msapplication>",
     "</browserconfig>"]
  return String.intercalate "\n" lines

/-!
Trace model of `generateIcons` (src/src/index.js lines 205-329).  The
file system and the raster library are oracles: `fileExistsAt` answers
the `fileExists` probe, `readFileAt` yields file bytes, and `render svg
size background` is the PNG the raster pipeline produces for the source
buffer at a square size with a background fill (the spec treats the
renderer as a pure function).  The model returns the ordered list of
file-system mutations the run performs together with the outcome; a run
that throws still reports the mutations already performed before the
throwing step.
-/

/-- Contents written to a file. -/
inductive FileData
  | bytes (bs : List Nat)
  | text (s : String)
deriving Repr, DecidableEq

/-- A file-system mutation performed by the generator. -/
inductive FsEvent
  | mkdirp (dir : String)
  | writeFile (path : String) (data : FileData)
deriving Repr, DecidableEq

/-- The single write of `generateIcon` (src/src/index.js lines 32-46):
the rendered PNG with the background chosen by the policy. -/
def generateIconWrite (render : List Nat → Int → RGBA → List Nat)
    (svgBuffer : List Nat) (size : Int) (outputPath : String) : FsEvent :=
  .writeFile outputPath (.bytes (render svgBuffer size (generateIconBackground outputPath size)))

/-- Embedding of `generateRootFavicons` (src/src/index.js lines 86-133):
writes `favicon.png` rendered at `faviconPngSize` with transparent
background, writes the source bytes to `favicon.svg`, renders the sizes
`[16, 32]` with transparent background and encodes them, in that order,
with `createIcoBuffer` into `favicon.ico`. -/
def generateRootFavicons (render : List Nat → Int → RGBA → List Nat)
    (svgBuffer : List Nat) (outputDir : String) (o : Options) :
    List FsEvent × Except String RootFaviconSet :=
  let pngPath := pathJoin outputDir "favicon.png"
  let e1 := FsEvent.writeFile pngPath
    (.bytes (render svgBuffer o.faviconPngSize BACKGROUNDS.transparent))
  let svgPath := pathJoin outputDir "favicon.svg"
  let e2 := FsEvent.writeFile svgPath (.bytes svgBuffer)
  let icoPath := pathJoin outputDir "favicon.ico"
  let pngBuffers := [render svgBuffer 16 BACKGROUNDS.transparent,
                     render svgBuffer 32 BACKGROUNDS.transparent]
  match createIcoBuffer pngBuffers [16, 32] with
  | .error e => ([e1, e2], .error e)
  | .ok ico => ([e1, e2, FsEvent.writeFile icoPath (.bytes ico)],
      .ok ⟨pngPath, svgPath, icoPath⟩)

/-- The metadata tail of `generateIcons` (src/src/index.js lines
293-324): write `meta-tags.html` (the call mutates
`results.faviconSizes`, see `generateHtmlMetaTags`), write
`manifest.json`, then build `browserconfig.xml` — which can throw, after
the two previous writes — and write it. -/
def finishRun (events : List FsEvent) (results : Results)
    (appName appDescription : String) : List FsEvent × Except String Results :=
  let pr := generateHtmlMetaTags results "/icons"
  let htmlPath := pathJoin results.outputDir "meta-tags.html"
  let r1 : Results := { pr.2 with htmlFile := some htmlPath }
  let ev1 := events ++ [FsEvent.writeFile htmlPath (.text pr.1)]
  let mjson := generateManifestJson r1 appName appDescription "/icons"
  let manifestPath := pathJoin r1.outputDir "manifest.json"
  let r2 : Results := { r1 with manifestFile := some manifestPath }
  let ev2 := ev1 ++ [FsEvent.writeFile manifestPath (.text mjson)]
  match generateBrowserConfig r2.icons "#ffffff" "/icons" with
  | .error e => (ev2, .error e)
  | .ok xml =>
    let bcPath := pathJoin r2.outputDir "browserconfig.xml"
    (ev2 ++ [FsEvent.writeFile bcPath (.text xml)],
      .ok { r2 with browserConfigFile := some bcPath })

/-- The icon-loop writes of `generateIcons` (lines 237-250), one
rendered PNG per `iconSizes` entry. -/
def iconWritesOf (render : List Nat → Int → RGBA → List Nat)
    (svgBuffer : List Nat) (options : Options) : List FsEvent :=
  options.iconSizes.map (fun en =>
    generateIconWrite render svgBuffer en.size (pathJoin options.outputDir en.name))

/-- The `results.icons` records pushed by the icon loop (lines 243-247). -/
def iconRecordsOf (options : Options) : List IconRecord :=
  options.iconSizes.map (fun en =>
    IconRecord.mk en.size en.name (pathJoin options.outputDir en.name))

/-- The guard of the favicon-sizes step (line 253):
`options.generateFavicon && options.faviconSizes?.length > 0`. -/
def doFavOf (options : Options) : Bool :=
  options.generateFavicon && 0 < options.faviconSizes.length

/-- The writes of `generateFaviconSizes` (src/src/index.js lines 56-77),
performed when the guard holds. -/
def favWritesOf (render : List Nat → Int → RGBA → List Nat)
    (svgBuffer : List Nat) (options : Options) : List FsEvent :=
  if doFavOf options then
    options.faviconSizes.map (fun s =>
      FsEvent.writeFile (pathJoin options.outputDir ("favicon-" ++ toString s ++ ".png"))
        (.bytes (render svgBuffer s BACKGROUNDS.transparent)))
  else []

/-- The `results.faviconSizes` records (lines 261-264): each generated
path paired with the first digit run of its basename re-parsed by
`parseInt(...match(...))`. -/
def favRecordsOf (options : Options) : List FaviconEntry :=
  if doFavOf options then
    (options.faviconSizes.map (fun s =>
      pathJoin options.outputDir ("favicon-" ++ toString s ++ ".png"))).map (fun p =>
        FaviconEntry.mk p (Int.ofNat (digitsToNat (firstDigitRun (jsBasename p).toList))))
  else []

/-- Embedding of `generateIcons` (src/src/index.js lines 205-329) over
the already-merged option record: validate, probe the source file, read
it, create the output directory, render every `iconSizes` entry, then
the optional favicon sizes, then the optional root favicons, then the
three metadata files.  Validation failure and the missing-source check
abort before any mutation. -/
def generateIcons (render : List Nat → Int → RGBA → List Nat)
    (fileExistsAt : String → Bool) (readFileAt : String → List Nat)
    (appName appDescription : String) (options : Options) :
    List FsEvent × Except String Results :=
  match validateOptions options with
  | .error e => ([], .error e)
  | .ok () =>
    if fileExistsAt options.svgPath then
      let svgBuffer := readFileAt options.svgPath
      let baseEvents := FsEvent.mkdirp options.outputDir ::
        iconWritesOf render svgBuffer options ++ favWritesOf render svgBuffer options
      if options.generateRootFavicons then
        match generateRootFavicons render svgBuffer options.outputDir options with
        | (revs, .error e) => (baseEvents ++ revs, .error e)
        | (revs, .ok rootSet) =>
          finishRun (baseEvents ++ revs)
            { icons := iconRecordsOf options, faviconSizes := favRecordsOf options,
              outputDir := options.outputDir, rootFavicons := some rootSet }
            appName appDescription
      else
        finishRun baseEvents
          { icons := iconRecordsOf options, faviconSizes := favRecordsOf options,
            outputDir := options.outputDir }
          appName appDescription
    else ([], .error ("SVG file not found: " ++ options.svgPath))

/-- C6: when validation rejects the configuration, or validation passes
but the source file does not exist, `generateIcons` fails and its
mutation trace is empty — in particular the output directory is never
created.  Validation and the existence probe precede every mutation. -/
theorem generate_fail_fast (render : List Nat → Int → RGBA → List Nat)
    (fileExistsAt : String → Bool) (readFileAt : String → List Nat)
    (appName appDescription : String) (options : Options)
    (h : (∃ e, validateOptions options = .error e) ∨
      fileExistsAt options.svgPath = false) :
    (generateIcons render fileExistsAt readFileAt appName appDescription options).1 = [] ∧
    ∃ e, (generateIcons render fileExistsAt readFileAt appName appDescription options).2 =
      .error e := by
  unfold generateIcons
  rcases h with ⟨e, he⟩ | hf
  · rw [he]
    exact ⟨rfl, e, rfl⟩
  · cases hv : validateOptions options with
    | error e => exact ⟨rfl, e, rfl⟩
    | ok u =>
      cases u
      rw [hf]
      simp

/-- Witness for C6: a configuration rejected for its out-of-range
quality produces an empty mutation trace and an error. -/
theorem generate_fail_fast_witness :
    (generateIcons (fun _ _ _ => []) (fun _ => true) (fun _ => []) "n" "d"
      { DEFAULT_OPTIONS with quality := 0 }).1 = [] ∧
    ∃ e, (generateIcons (fun _ _ _ => []) (fun _ => true) (fun _ => []) "n" "d"
      { DEFAULT_OPTIONS with quality := 0 }).2 = .error e :=
  generate_fail_fast (fun _ _ _ => []) (fun _ => true) (fun _ => []) "n" "d"
    { DEFAULT_OPTIONS with quality := 0 }
    (Or.inl ⟨"quality must be a number between 1 and 100", rfl⟩)

instance : IsTotal ManifestIcon (fun a b => parseIntJS a.sizes ≤ parseIntJS b.sizes) :=
  ⟨fun a b => Int.le_total (parseIntJS a.sizes) (parseIntJS b.sizes)⟩

instance : IsTrans ManifestIcon (fun a b => parseIntJS a.sizes ≤ parseIntJS b.sizes) :=
  ⟨fun _ _ _ hab hbc => Int.le_trans hab hbc⟩

/-- C8: the manifest emitter's icons array consists of exactly the input
entries whose name starts with `icon-` and does not contain `apple`
(mapped to manifest objects), is sorted ascending by the size parsed
from the `sizes` string, and carries the purpose `any maskable` exactly
for entries of pixel size 192 or 512, `any` otherwise. -/
theorem manifest_icons_pipeline (icons : List IconRecord) (baseUrl : String) :
    (pwaIcons icons baseUrl).Perm
      ((icons.filter (fun e => jsStartsWith e.name "icon-" && !(jsIncludes e.name "apple"))).map
        (mkPwaIcon baseUrl)) ∧
    List.Sorted (fun a b => parseIntJS a.sizes ≤ parseIntJS b.sizes) (pwaIcons icons baseUrl) ∧
    ∀ e ∈ icons.filter (fun e => jsStartsWith e.name "icon-" && !(jsIncludes e.name "apple")),
      ((mkPwaIcon baseUrl e).purpose = "any maskable" ↔ (e.size = 192 ∨ e.size = 512)) ∧
      ((mkPwaIcon baseUrl e).purpose = "any" ↔ ¬(e.size = 192 ∨ e.size = 512)) := by
  refine ⟨List.perm_insertionSort _ _, List.sorted_insertionSort _ _, ?_⟩
  intro e _
  by_cases h : e.size = 192 ∨ e.size = 512
  · constructor
    · simp [mkPwaIcon, h]
    · simp [mkPwaIcon, h]
  · constructor
    · simp [mkPwaIcon, h]
    · simp [mkPwaIcon, h]

/-- Witness for C8 at a concrete manifest containing PWA, Apple and
favicon entries. -/
theorem manifest_icons_pipeline_witness :
    (pwaIcons [⟨512, "icon-512x512.png", "p1"⟩, ⟨180, "apple-touch-icon-180x180.png", "p2"⟩,
        ⟨192, "icon-192x192.png", "p3"⟩] "/icons").Perm
      ((([⟨512, "icon-512x512.png", "p1"⟩, ⟨180, "apple-touch-icon-180x180.png", "p2"⟩,
          ⟨192, "icon-192x192.png", "p3"⟩] : List IconRecord).filter
        (fun e => jsStartsWith e.name "icon-" && !(jsIncludes e.name "apple"))).map
        (mkPwaIcon "/icons")) ∧
    List.Sorted (fun a b => parseIntJS a.sizes ≤ parseIntJS b.sizes)
      (pwaIcons [⟨512, "icon-512x512.png", "p1"⟩, ⟨180, "apple-touch-icon-180x180.png", "p2"⟩,
        ⟨192, "icon-192x192.png", "p3"⟩] "/icons") ∧
    ∀ e ∈ ([⟨512, "icon-512x512.png", "p1"⟩, ⟨180, "apple-touch-icon-180x180.png", "p2"⟩,
        ⟨192, "icon-192x192.png", "p3"⟩] : List IconRecord).filter
        (fun e => jsStartsWith e.name "icon-" && !(jsIncludes e.name "apple")),
      ((mkPwaIcon "/icons" e).purpose = "any maskable" ↔ (e.size = 192 ∨ e.size = 512)) ∧
      ((mkPwaIcon "/icons" e).purpose = "any" ↔ ¬(e.size = 192 ∨ e.size = 512)) :=
  manifest_icons_pipeline
    [⟨512, "icon-512x512.png", "p1"⟩, ⟨180, "apple-touch-icon-180x180.png", "p2"⟩,
     ⟨192, "icon-192x192.png", "p3"⟩] "/icons"

/-- C9 evaluation at the failing input: a manifest containing an icon of
size 310 makes `generateBrowserConfig` throw, because the `tile310x150`
predicate at src/src/utils.js line 287 destructures only `size` and then
reads the unbound identifier `name`. -/
theorem browser_config_throws_on_310 :
    generateBrowserConfig [⟨310, "icon-310x310.png", "./icons/icon-310x310.png"⟩]
      "#ffffff" "/icons" = .error "ReferenceError: name is not defined" := rfl

/-- C10 counterexample: calling the HTML emitter on a manifest whose
favicon list is in ascending order changes the manifest — line 175's
in-place `sort` leaves `faviconSizes` descending. -/
theorem html_emitter_mutates :
    (generateHtmlMetaTags
      { icons := [],
        faviconSizes := [⟨"./icons/favicon-16.png", 16⟩, ⟨"./icons/favicon-32.png", 32⟩],
        outputDir := "./icons" } "/icons").2 ≠
      { icons := [],
        faviconSizes := [⟨"./icons/favicon-16.png", 16⟩, ⟨"./icons/favicon-32.png", 32⟩],
        outputDir := "./icons" } := fun hEq =>
  absurd (congrArg Results.faviconSizes hEq) (by decide)

/-- The post-call manifest of the HTML emitter: identical except that
the favicon list has been sorted in place (when non-empty). -/
lemma generateHtmlMetaTags_snd (results : Results) (baseUrl : String) :
    (generateHtmlMetaTags results baseUrl).2 =
      { results with faviconSizes :=
          if 0 < results.faviconSizes.length then sortFavDesc results.faviconSizes
          else results.faviconSizes } := rfl

instance : IsTotal FaviconEntry (fun a b => b.size ≤ a.size) :=
  ⟨fun a b => Int.le_total b.size a.size⟩

instance : IsTrans FaviconEntry (fun a b => b.size ≤ a.size) :=
  ⟨fun _ _ _ hab hbc => Int.le_trans hbc hab⟩

/-- C10 amended: the HTML emitter leaves every manifest field unchanged
except `faviconSizes`, which it sorts in place descending by size (the
same elements, reordered); the icons list order is preserved. -/
theorem html_emitter_effect (results : Results) (baseUrl : String) :
    (generateHtmlMetaTags results baseUrl).2.icons = results.icons ∧
    (generateHtmlMetaTags results baseUrl).2.outputDir = results.outputDir ∧
    (generateHtmlMetaTags results baseUrl).2.rootFavicons = results.rootFavicons ∧
    (generateHtmlMetaTags results baseUrl).2.htmlFile = results.htmlFile ∧
    (generateHtmlMetaTags results baseUrl).2.manifestFile = results.manifestFile ∧
    (generateHtmlMetaTags results baseUrl).2.browserConfigFile = results.browserConfigFile ∧
    (generateHtmlMetaTags results baseUrl).2.faviconSizes.Perm results.faviconSizes ∧
    List.Sorted (fun a b => b.size ≤ a.size)
      (generateHtmlMetaTags results baseUrl).2.faviconSizes := by
  rw [generateHtmlMetaTags_snd]
  refine ⟨rfl, rfl, rfl, rfl, rfl, rfl, ?_, ?_⟩
  · by_cases h : 0 < results.faviconSizes.length
    · simp only [h, if_pos]
      exact List.perm_insertionSort _ _
    · simp only [h, if_neg]
      exact List.Perm.refl _
  · by_cases h : 0 < results.faviconSizes.length
    · simp only [h, if_pos]
      exact List.sorted_insertionSort _ _
    · have hnil : results.faviconSizes = [] := by
        cases hl : results.faviconSizes with
        | nil => rfl
        | cons a l => rw [hl] at h; simp at h
      simp [hnil]

/-- Witness for C10's amended claim at a concrete manifest. -/
theorem html_emitter_effect_witness :
    (generateHtmlMetaTags
      { icons := [⟨144, "apple-touch-icon-144x144.png", "q"⟩],
        faviconSizes := [⟨"a", 16⟩, ⟨"b", 32⟩], outputDir := "./icons" } "/icons").2.icons =
        [⟨144, "apple-touch-icon-144x144.png", "q"⟩] ∧
    (generateHtmlMetaTags
      { icons := [⟨144, "apple-touch-icon-144x144.png", "q"⟩],
        faviconSizes := [⟨"a", 16⟩, ⟨"b", 32⟩], outputDir := "./icons" } "/icons").2.outputDir =
        "./icons" ∧
    (generateHtmlMetaTags
      { icons := [⟨144, "apple-touch-icon-144x144.png", "q"⟩],
        faviconSizes := [⟨"a", 16⟩, ⟨"b", 32⟩], outputDir := "./icons" } "/icons").2.rootFavicons =
        none ∧
    (generateHtmlMetaTags
      { icons := [⟨144, "apple-touch-icon-144x144.png", "q"⟩],
        faviconSizes := [⟨"a", 16⟩, ⟨"b", 32⟩], outputDir := "./icons" } "/icons").2.htmlFile =
        none ∧
    (generateHtmlMetaTags
      { icons := [⟨144, "apple-touch-icon-144x144.png", "q"⟩],
        faviconSizes := [⟨"a", 16⟩, ⟨"b", 32⟩], outputDir := "./icons" } "/icons").2.manifestFile =
        none ∧
    (generateHtmlMetaTags
      { icons := [⟨144, "apple-touch-icon-144x144.png", "q"⟩],
        faviconSizes := [⟨"a", 16⟩, ⟨"b", 32⟩], outputDir := "./icons" } "/icons").2.browserConfigFile =
        none ∧
    ((generateHtmlMetaTags
      { icons := [⟨144, "apple-touch-icon-144x144.png", "q"⟩],
        faviconSizes := [⟨"a", 16⟩, ⟨"b", 32⟩], outputDir := "./icons" } "/icons").2.faviconSizes.Perm
        [⟨"a", 16⟩, ⟨"b", 32⟩]) ∧
    List.Sorted (fun a b => b.size ≤ a.size)
      (generateHtmlMetaTags
        { icons := [⟨144, "apple-touch-icon-144x144.png", "q"⟩],
          faviconSizes := [⟨"a", 16⟩, ⟨"b", 32⟩], outputDir := "./icons" } "/icons").2.faviconSizes :=
  html_emitter_effect
    { icons := [⟨144, "apple-touch-icon-144x144.png", "q"⟩],
      faviconSizes := [⟨"a", 16⟩, ⟨"b", 32⟩], outputDir := "./icons" } "/icons"

/-- When no icon record has size 310, the buggy `tile310x150` lookup
never evaluates the unbound `name` and returns no match. -/
lemma find310x150_ok : ∀ (icons : List IconRecord),
    (∀ e ∈ icons, e.size ≠ 310) → find310x150 icons = .ok none
  | [], _ => rfl
  | e :: rest, h => by
    simp only [find310x150]
    rw [if_neg (h e (List.mem_cons_self _ _))]
    exact find310x150_ok rest (fun x hx => h x (List.mem_cons_of_mem _ hx))

/-- The browser-config emitter succeeds on any manifest without a
size-310 entry. -/
lemma generateBrowserConfig_ok (icons : List IconRecord) (tileColor baseUrl : String)
    (h : ∀ e ∈ icons, e.size ≠ 310) :
    ∃ xml, generateBrowserConfig icons tileColor baseUrl = .ok xml := by
  unfold generateBrowserConfig
  rw [find310x150_ok icons h]
  exact ⟨_, rfl⟩

/-- The metadata tail succeeds on manifests without size-310 icons; its
trace extends the incoming events and it preserves `rootFavicons`. -/
lemma finishRun_ok (events : List FsEvent) (results : Results) (an ad : String)
    (h : ∀ e ∈ results.icons, e.size ≠ 310) :
    ∃ res, (finishRun events results an ad).2 = .ok res ∧
      res.rootFavicons = results.rootFavicons ∧
      ∀ ev ∈ events, ev ∈ (finishRun events results an ad).1 := by
  obtain ⟨xml, hx⟩ := generateBrowserConfig_ok results.icons "#ffffff" "/icons" h
  simp only [finishRun]
  rw [show (generateHtmlMetaTags results "/icons").2.icons = results.icons from rfl, hx]
  refine ⟨_, rfl, rfl, ?_⟩
  intro ev hev
  exact List.mem_append_left _ (List.mem_append_left _ (List.mem_append_left _ hev))

/-- C7: with root-favicon generation enabled (and a valid configuration
whose source exists), the run renders one transparent PNG at
`faviconPngSize` to `favicon.png`, writes the source bytes unchanged to
`favicon.svg`, feeds the transparent renders at 16 and 32 — in that
order — to `createIcoBuffer` and writes the result to `favicon.ico`;
the returned manifest's `rootFavicons` is exactly these three paths.
The buffer-length bound reflects the `writeUInt32LE` range check and
the size-310 exclusion reflects the browser-config lookup that the
metadata tail performs before `generateIcons` returns. -/
theorem root_favicons_flow (render : List Nat → Int → RGBA → List Nat)
    (fileExistsAt : String → Bool) (readFileAt : String → List Nat)
    (appName appDescription : String) (o : Options)
    (hval : validateOptions o = .ok ())
    (hex : fileExistsAt o.svgPath = true)
    (hroot : o.generateRootFavicons = true)
    (hbuf : 38 + (render (readFileAt o.svgPath) 16 BACKGROUNDS.transparent).length +
      (render (readFileAt o.svgPath) 32 BACKGROUNDS.transparent).length ≤ 4294967295)
    (h310 : ∀ en ∈ o.iconSizes, en.size ≠ (310 : Int)) :
    ∃ results,
      (generateIcons render fileExistsAt readFileAt appName appDescription o).2 =
        .ok results ∧
      results.rootFavicons = some ⟨pathJoin o.outputDir "favicon.png",
        pathJoin o.outputDir "favicon.svg", pathJoin o.outputDir "favicon.ico"⟩ ∧
      FsEvent.writeFile (pathJoin o.outputDir "favicon.png")
          (.bytes (render (readFileAt o.svgPath) o.faviconPngSize BACKGROUNDS.transparent)) ∈
        (generateIcons render fileExistsAt readFileAt appName appDescription o).1 ∧
      FsEvent.writeFile (pathJoin o.outputDir "favicon.svg")
          (.bytes (readFileAt o.svgPath)) ∈
        (generateIcons render fileExistsAt readFileAt appName appDescription o).1 ∧
      ∃ ico, createIcoBuffer
          [render (readFileAt o.svgPath) 16 BACKGROUNDS.transparent,
           render (readFileAt o.svgPath) 32 BACKGROUNDS.transparent] [16, 32] = .ok ico ∧
        FsEvent.writeFile (pathJoin o.outputDir "favicon.ico") (.bytes ico) ∈
          (generateIcons render fileExistsAt readFileAt appName appDescription o).1 := by
  have hico := createIcoBuffer_ok
    [render (readFileAt o.svgPath) 16 BACKGROUNDS.transparent,
     render (readFileAt o.svgPath) 32 BACKGROUNDS.transparent] [16, 32]
    rfl (by decide) (by simp) (by simp; omega)
  have hrf : generateRootFavicons render (readFileAt o.svgPath) o.outputDir o =
      ([FsEvent.writeFile (pathJoin o.outputDir "favicon.png")
          (.bytes (render (readFileAt o.svgPath) o.faviconPngSize BACKGROUNDS.transparent)),
        FsEvent.writeFile (pathJoin o.outputDir "favicon.svg")
          (.bytes (readFileAt o.svgPath)),
        FsEvent.writeFile (pathJoin o.outputDir "favicon.ico")
          (.bytes (icoBytes
            [render (readFileAt o.svgPath) 16 BACKGROUNDS.transparent,
             render (readFileAt o.svgPath) 32 BACKGROUNDS.transparent] [16, 32]))],
       .ok ⟨pathJoin o.outputDir "favicon.png", pathJoin o.outputDir "favicon.svg",
         pathJoin o.outputDir "favicon.ico"⟩) := by
    simp only [generateRootFavicons, hico]
  have h310' : ∀ e ∈ iconRecordsOf o, e.size ≠ (310 : Int) := by
    intro e he
    simp only [iconRecordsOf, List.mem_map] at he
    obtain ⟨en, hen, rfl⟩ := he
    exact h310 en hen
  have hgen : generateIcons render fileExistsAt readFileAt appName appDescription o =
      finishRun ((FsEvent.mkdirp o.outputDir ::
          iconWritesOf render (readFileAt o.svgPath) o ++
          favWritesOf render (readFileAt o.svgPath) o) ++
        [FsEvent.writeFile (pathJoin o.outputDir "favicon.png")
            (.bytes (render (readFileAt o.svgPath) o.faviconPngSize BACKGROUNDS.transparent)),
         FsEvent.writeFile (pathJoin o.outputDir "favicon.svg")
            (.bytes (readFileAt o.svgPath)),
         FsEvent.writeFile (pathJoin o.outputDir "favicon.ico")
            (.bytes (icoBytes
              [render (readFileAt o.svgPath) 16 BACKGROUNDS.transparent,
               render (readFileAt o.svgPath) 32 BACKGROUNDS.transparent] [16, 32]))])
        { icons := iconRecordsOf o, faviconSizes := favRecordsOf o,
          outputDir := o.outputDir,
          rootFavicons := some ⟨pathJoin o.outputDir "favicon.png",
            pathJoin o.outputDir "favicon.svg", pathJoin o.outputDir "favicon.ico"⟩ }
        appName appDescription := by
    simp [generateIcons, hval, hex, hroot, hrf]
  rw [hgen]
  obtain ⟨res, h2, hrt, hmem⟩ := finishRun_ok
    ((FsEvent.mkdirp o.outputDir ::
        iconWritesOf render (readFileAt o.svgPath) o ++
        favWritesOf render (readFileAt o.svgPath) o) ++
      [FsEvent.writeFile (pathJoin o.outputDir "favicon.png")
          (.bytes (render (readFileAt o.svgPath) o.faviconPngSize BACKGROUNDS.transparent)),
       FsEvent.writeFile (pathJoin o.outputDir "favicon.svg")
          (.bytes (readFileAt o.svgPath)),
       FsEvent.writeFile (pathJoin o.outputDir "favicon.ico")
          (.bytes (icoBytes
            [render (readFileAt o.svgPath) 16 BACKGROUNDS.transparent,
             render (readFileAt o.svgPath) 32 BACKGROUNDS.transparent] [16, 32]))])
    { icons := iconRecordsOf o, faviconSizes := favRecordsOf o,
      outputDir := o.outputDir,
      rootFavicons := some ⟨pathJoin o.outputDir "favicon.png",
        pathJoin o.outputDir "favicon.svg", pathJoin o.outputDir "favicon.ico"⟩ }
    appName appDescription h310'
  refine ⟨res, h2, hrt, ?_, ?_,
    icoBytes [render (readFileAt o.svgPath) 16 BACKGROUNDS.transparent,
      render (readFileAt o.svgPath) 32 BACKGROUNDS.transparent] [16, 32], hico, ?_⟩
  · exact hmem _ (by simp)
  · exact hmem _ (by simp)
  · exact hmem _ (by simp)

/-- A concrete valid configuration exercising the root-favicon flow. -/
def rootFlowOptions : Options :=
  { svgPath := "./favicon.svg", outputDir := "./icons",
    iconSizes := [⟨192, "icon-192x192.png"⟩],
    generateFavicon := false, faviconSizes := [16, 32],
    generateRootFavicons := true, faviconPngSize := 32,
    quality := 95, compressionLevel := 9, verbose := true }

/-- Witness for C7 at a concrete configuration and oracles. -/
theorem root_favicons_flow_witness :
    ∃ results,
      (generateIcons (fun _ _ _ => []) (fun _ => true) (fun _ => []) "n" "d"
        rootFlowOptions).2 = .ok results ∧
      results.rootFavicons = some ⟨pathJoin rootFlowOptions.outputDir "favicon.png",
        pathJoin rootFlowOptions.outputDir "favicon.svg",
        pathJoin rootFlowOptions.outputDir "favicon.ico"⟩ ∧
      FsEvent.writeFile (pathJoin rootFlowOptions.outputDir "favicon.png")
          (.bytes ((fun _ _ _ => []) (([] : List Nat)) rootFlowOptions.faviconPngSize
            BACKGROUNDS.transparent)) ∈
        (generateIcons (fun _ _ _ => []) (fun _ => true) (fun _ => []) "n" "d"
          rootFlowOptions).1 ∧
      FsEvent.writeFile (pathJoin rootFlowOptions.outputDir "favicon.svg")
          (.bytes (([] : List Nat))) ∈
        (generateIcons (fun _ _ _ => []) (fun _ => true) (fun _ => []) "n" "d"
          rootFlowOptions).1 ∧
      ∃ ico, createIcoBuffer [[], []] [16, 32] = .ok ico ∧
        FsEvent.writeFile (pathJoin rootFlowOptions.outputDir "favicon.ico") (.bytes ico) ∈
          (generateIcons (fun _ _ _ => []) (fun _ => true) (fun _ => []) "n" "d"
            rootFlowOptions).1 :=
  root_favicons_flow (fun _ _ _ => []) (fun _ => true) (fun _ => []) "n" "d"
    rootFlowOptions rfl rfl rfl (by decide) (by decide)
